import Mathlib

/-!
Verification development for the AI-Based-SRS-Generator backend.

This file gives a shallow embedding, in Lean 4, of the core logic of the
repository: the workflow orchestration state machine of
src/backend/workflow.py, the retrieval ranking pipeline of
src/backend/agents/RetrieverAgent.py, and the draft generation fallback
logic of src/backend/agents/DocGenerationAgent.py.  Python strings are
modelled as Lean strings, Python floats as rationals, Python None as
Option, and the external agents (LLM calls, vector store searches) as
explicit outcome oracles.  Exceptions raised by external calls are
modelled as outcome values handled exactly where the Python code catches
them.  All definitions follow the Python source line by line.
-/

namespace SRSGen

/-! ## Python string primitives, modelled over character lists -/

/-- Boolean test that the first list is an initial segment of the second. -/
def leadsWith : List Char → List Char → Bool
  | [], _ => true
  | _ :: _, [] => false
  | a :: as, b :: bs => a = b && leadsWith as bs

/-- Python substring containment test (the needle occurs contiguously in the
haystack), needle first. -/
def hasSubL (needle : List Char) : List Char → Bool
  | [] => needle.isEmpty
  | b :: bs => leadsWith needle (b :: bs) || hasSubL needle bs

/-- Python expression needle in hay for strings. -/
def strHasSub (hay needle : String) : Bool := hasSubL needle.data hay.data

/-- Python str.strip() on a character list: drop leading and trailing
whitespace. -/
def stripChars (l : List Char) : List Char :=
  ((l.dropWhile Char.isWhitespace).reverse.dropWhile Char.isWhitespace).reverse

/-- Python str.strip() for strings. -/
def pyStrip (s : String) : String := ⟨stripChars s.data⟩

/-- Python str.lower() (ASCII case folding as in the repository content). -/
def pyLower (s : String) : String := ⟨s.data.map Char.toLower⟩

/-- Case-insensitive containment, as in section.lower() in content.lower(). -/
def strHasSubCI (hay needle : String) : Bool := strHasSub (pyLower hay) (pyLower needle)

/-- Split a character list on a separator character, Python str.split(sep)
semantics: consecutive separators yield empty pieces, and the empty input
yields one empty piece. -/
def splitOnChar (c : Char) : List Char → List (List Char)
  | [] => [[]]
  | a :: as =>
    let r := splitOnChar c as
    if a = c then [] :: r
    else
      match r with
      | [] => [[a]]
      | h :: t => (a :: h) :: t

/-- Split a character list on whitespace runs, Python str.split() with no
argument: empty pieces are discarded. -/
def splitWS (l : List Char) : List (List Char) :=
  (l.splitOnP Char.isWhitespace).filter (fun w => ¬ w.isEmpty)

/-- Python len(s.split()): number of whitespace-separated words. -/
def wordCount (s : String) : ℕ := (splitWS s.data).length

/-- Python " ".join(words) for word lists. -/
def joinSpace (ws : List (List Char)) : List Char :=
  match ws with
  | [] => []
  | w :: rest => w ++ (rest.map (fun x => ' ' :: x)).flatten

/-- Python truthiness of an optional string combined with or-chaining:
value if the option holds a non-empty string, otherwise the default. -/
def pyStrOr (a : Option String) (b : String) : String :=
  match a with
  | some v => if v = "" then b else v
  | none => b

/-! ## Compliance checker (workflow.py, _compliance_check_node and
_get_required_sections) -/

/-- Required section names per document type, from _get_required_sections:
a fixed table with a generic three-section default for unknown types. -/
def getRequiredSections (docType : String) : List String :=
  if docType = "SRS" then ["Introduction", "Requirements", "Specifications"]
  else if docType = "SOW" then ["Scope", "Deliverables", "Timeline"]
  else if docType = "Proposal" then ["Overview", "Approach", "Budget"]
  else if docType = "Technical" then ["Architecture", "Implementation", "API"]
  else if docType = "Business" then ["Executive Summary", "Market Analysis", "Financial"]
  else ["Introduction", "Content", "Conclusion"]

/-- Result record built by _compliance_check_node. -/
structure ComplianceResult where
  compliant : Bool
  missingSections : List String
  issues : List String
  deriving Repr, DecidableEq

/-- The compliance computation of _compliance_check_node: a section is
present when its name occurs case-insensitively anywhere in the content;
a document under 500 whitespace-separated words is additionally flagged
with an incompleteness issue and marked non-compliant. -/
def complianceCheckFn (docType content : String) : ComplianceResult :=
  let required := getRequiredSections docType
  let missing := required.filter (fun sec => ¬ strHasSubCI content sec)
  let tooShort := wordCount content < 500
  { compliant := missing.isEmpty && ¬ tooShort
    missingSections := missing
    issues := if tooShort then ["Document too short - likely incomplete or truncated"] else [] }

/-! ## Workflow orchestration state machine (workflow.py, AgenticRAGWorkflow) -/

/-- Python int() applied to a rational: truncation toward zero
(floor for nonnegative values, ceiling for negative ones). -/
def ratTrunc (q : ℚ) : ℤ := if 0 ≤ q then ⌊q⌋ else ⌈q⌉

/-- The integer feedback score derived in _finalize_document_node:
max(1, min(5, int(quality_score * 5))). -/
def feedbackScoreOfQuality (q : ℚ) : ℤ := max 1 (min 5 (ratTrunc (q * 5)))

/-- Modelled from the spec: the feedback score formula the specification
states for finalization, round(clamp(quality_score, 0, 1) * 5) clamped
to the range 1..5.  Stated only for comparison against
feedbackScoreOfQuality, which is the formula the code computes. -/
def specRoundFeedbackScore (q : ℚ) : ℤ := max 1 (min 5 (round (min 1 (max 0 q) * 5)))

/-- The LangGraph nodes of AgenticRAGWorkflow._build_workflow. -/
inductive Node
  | initializeN
  | buildStyleN
  | retrieveCtxN
  | generateDocN
  | complianceN
  | reviewDocN
  | finalizeDocN
  | handleErrorN
  deriving Repr, DecidableEq

/-- The GraphState record threaded through the workflow, restricted to the
fields the state machine logic reads or writes.  persistedFeedbackScore and
genCalls are ghost fields: the former records the feedback_score handed to
the ingestion agent at finalization, the latter counts invocations of the
Draft Generator (the generator agent execute call in
_generate_document_node). -/
structure WFState where
  docType : String
  summary : String
  requirements : String
  styleProfileSet : Bool
  retrievedSet : Bool
  draftDocument : Option String
  reviewedDocument : Option String
  finalDocument : Option String
  workflowStatus : String
  errorMessage : Option String
  complianceCheck : Option ComplianceResult
  qualityScore : ℚ
  iterationCount : ℕ
  maxIterations : ℕ
  persistedFeedbackScore : Option ℤ
  genCalls : ℕ
  deriving Repr

/-- The external outcome of executing one workflow node: whether the node
body raised, whether the agent call returned None, and the payloads an
agent call produced (draft content for the generator, improved content and
the number of changes for the reviewer). -/
structure NodeOutcome where
  throws : Bool
  agentNone : Bool
  genContent : String
  reviewContent : String
  reviewChanges : ℕ
  deriving Repr

/-- The initial GraphState built in execute_generation_workflow:
quality_score 0.7, iteration_count 0, no documents, no error. -/
def initState (docType summary requirements : String) (maxIterations : ℕ) : WFState :=
  { docType := docType
    summary := summary
    requirements := requirements
    styleProfileSet := false
    retrievedSet := false
    draftDocument := none
    reviewedDocument := none
    finalDocument := none
    workflowStatus := "initializing"
    errorMessage := none
    complianceCheck := none
    qualityScore := 7/10
    iterationCount := 0
    maxIterations := maxIterations
    persistedFeedbackScore := none
    genCalls := 0 }

/-- The except branch of every node: record the error message and set the
status to error. -/
def setError (s : WFState) (msg : String) : WFState :=
  { s with errorMessage := some msg, workflowStatus := "error" }

/-- One workflow node body, following the corresponding method of
AgenticRAGWorkflow.  An exception anywhere in a node body is caught by the
node itself and recorded via setError.  The generator node increments
iteration_count (and the ghost invocation counter) before the agent call,
as in _generate_document_node. -/
def runNode (o : NodeOutcome) : Node → WFState → WFState
  | .initializeN, s =>
    if o.throws then setError s "exception" else
    { s with workflowStatus := "initializing", iterationCount := 0 }
  | .buildStyleN, s =>
    if o.throws then setError s "exception" else
    if o.agentNone then setError s "StyleProfileBuilderAgent returned None" else
    { s with styleProfileSet := true, workflowStatus := "style_profile_built" }
  | .retrieveCtxN, s =>
    if o.throws then setError s "exception" else
    if o.agentNone then setError s "RetrieverAgent returned None" else
    { s with retrievedSet := true, workflowStatus := "context_retrieved" }
  | .generateDocN, s =>
    let s1 := { s with iterationCount := s.iterationCount + 1, genCalls := s.genCalls + 1 }
    if o.throws then setError s1 "exception" else
    if o.agentNone then setError s1 "DocGenerationAgent returned None" else
    { s1 with draftDocument := some o.genContent, workflowStatus := "document_generated" }
  | .complianceN, s =>
    if o.throws then setError s "exception" else
    match s.draftDocument with
    | none => setError s "exception"
    | some content =>
      { s with complianceCheck := some (complianceCheckFn s.docType content)
               workflowStatus := "compliance_checked" }
  | .reviewDocN, s =>
    if o.throws then setError s "exception" else
    if o.agentNone then setError s "ReviewEditingAgent returned None" else
    { s with reviewedDocument := some o.reviewContent
             workflowStatus := "document_reviewed"
             qualityScore := min 1 (s.qualityScore + o.reviewChanges * (5/100)) }
  | .finalizeDocN, s =>
    let finalContent := pyStrOr s.reviewedDocument (pyStrOr s.draftDocument "")
    if o.throws then
      { s with finalDocument := some finalContent
               errorMessage := some "exception"
               workflowStatus := "error" }
    else
      { s with finalDocument := some finalContent
               workflowStatus := "completed"
               persistedFeedbackScore := some (feedbackScoreOfQuality s.qualityScore) }
  | .handleErrorN, s => { s with workflowStatus := "failed" }

/-- Routing outcome of _should_review. -/
inductive ReviewRoute
  | review
  | error
  deriving Repr, DecidableEq

/-- The _should_review guard: error when error_message is set, otherwise
review is forced unconditionally (the compliance-based branch is commented
out in the source). -/
def shouldReview (s : WFState) : ReviewRoute :=
  if s.errorMessage.isSome then .error else .review

/-- Routing outcome of _should_regenerate. -/
inductive RegenRoute
  | regenerate
  | finalize
  | error
  deriving Repr, DecidableEq

/-- The _should_regenerate guard: error when error_message is set; finalize
when iteration_count has reached max_iterations; regenerate when the
post-review quality score is below 0.7; otherwise finalize. -/
def shouldRegenerate (s : WFState) : RegenRoute :=
  if s.errorMessage.isSome then .error
  else if s.maxIterations ≤ s.iterationCount then .finalize
  else if s.qualityScore < 7/10 then .regenerate
  else .finalize

/-- The edge structure of _build_workflow: unconditional edges up to the
compliance check, then the two conditional routers; finalize_document and
handle_error lead to END (none). -/
def routeAfter : Node → WFState → Option Node
  | .initializeN, _ => some .buildStyleN
  | .buildStyleN, _ => some .retrieveCtxN
  | .retrieveCtxN, _ => some .generateDocN
  | .generateDocN, _ => some .complianceN
  | .complianceN, s =>
    match shouldReview s with
    | .review => some .reviewDocN
    | .error => some .handleErrorN
  | .reviewDocN, s =>
    match shouldRegenerate s with
    | .regenerate => some .generateDocN
    | .finalize => some .finalizeDocN
    | .error => some .handleErrorN
  | .finalizeDocN, _ => none
  | .handleErrorN, _ => none

/-- Fuel-indexed execution of the workflow graph: run the current node with
the outcome the environment supplies for this step, then follow the edge;
stop at END or when the fuel runs out. -/
def wfRun (env : ℕ → NodeOutcome) : ℕ → ℕ → Node → WFState → WFState
  | 0, _, _, s => s
  | fuel + 1, t, n, s =>
    let s' := runNode (env t) n s
    match routeAfter n s' with
    | none => s'
    | some n' => wfRun env fuel (t + 1) n' s'

/-- A complete workflow run from the initial state, as staged by
execute_generation_workflow. -/
def wfRunFull (env : ℕ → NodeOutcome) (fuel : ℕ)
    (docType summary requirements : String) (maxIterations : ℕ) : WFState :=
  wfRun env fuel 0 .initializeN (initState docType summary requirements maxIterations)

/-! ## Retrieval ranking pipeline (RetrieverAgent.py) -/

/-- The metadata feedback_score slot of a retrieved document: absent from
the metadata map, a numeric value, or a value that int(float(x)) cannot
parse (raising ValueError or TypeError in the source). -/
inductive FeedbackVal
  | missing
  | num (q : ℚ)
  | bad
  deriving Repr, DecidableEq

/-- The relevance score slot of a document dict: absent, numeric, or a
string whose float(x) parse is modelled by an optional rational. -/
inductive RelVal
  | relNum (q : ℚ)
  | relStr (parsed : Option ℚ)
  | relMissing
  deriving Repr, DecidableEq

/-- A retrieved document dict: content, metadata doc_type, metadata
feedback_score, and relevance score. -/
structure RDoc where
  content : String
  docType : Option String
  feedback : FeedbackVal
  score : RelVal
  deriving Repr, DecidableEq

/-- The feedback integer extracted in calculate_ranking_score:
metadata.get(feedback_score, 0) followed by int(float(x)); an absent slot
yields the default 0, an unparseable value yields the neutral 3. -/
def feedbackIntRerank : FeedbackVal → ℤ
  | .missing => 0
  | .num q => ratTrunc q
  | .bad => 3

/-- The relevance rational extracted in calculate_ranking_score:
doc.get(score, 0.0), with string values parsed by float() and falling back
to 0.0 on ValueError. -/
def relevanceVal : RelVal → ℚ
  | .relNum q => q
  | .relStr (some q) => q
  | .relStr none => 0
  | .relMissing => 0

/-- Feedback normalization in calculate_ranking_score:
(feedback_score - 1) / 4.0 when the feedback integer is positive, else 0. -/
def normalizedFeedback (n : ℤ) : ℚ := if 0 < n then (n - 1) / 4 else 0

/-- The fused score of calculate_ranking_score:
0.7 * relevance + 0.3 * normalized feedback. -/
def rankingScore (d : RDoc) : ℚ :=
  7/10 * relevanceVal d.score + 3/10 * normalizedFeedback (feedbackIntRerank d.feedback)

/-- Modelled from the spec: the fused score the specification states, in
which a document whose metadata is missing a feedback score is scored with
the neutral default 3 before the 1..5 to 0..1 normalization.  Stated only
for comparison against rankingScore, which is what the code computes. -/
def specFusedScore (d : RDoc) : ℚ :=
  let fb : ℤ :=
    match d.feedback with
    | .missing => 3
    | .num q => ratTrunc q
    | .bad => 3
  7/10 * relevanceVal d.score + 3/10 * ((fb - 1) / 4)

/-- The _rerank_documents sort: Python sorted with the fused score as key
and reverse=True, a stable descending sort, modelled by a stable merge
sort whose le relation compares fused scores descending. -/
def rerankDocuments (docs : List RDoc) : List RDoc :=
  docs.mergeSort (fun a b => decide (rankingScore b ≤ rankingScore a))

/-- The post-retrieval feedback filter of _filter_documents_by_score:
keep a document when int(float(feedback_score)) is at least the minimum,
treating an unparseable score as passing; an absent slot defaults to 0. -/
def passesScoreFilter (minScore : ℤ) : FeedbackVal → Bool
  | .missing => decide (minScore ≤ 0)
  | .num q => decide (minScore ≤ ratTrunc q)
  | .bad => true

/-- Conversion of a (document, score) search hit into the standard dict in
execute: a numeric score is kept, anything else becomes the default 0.5. -/
def convertHit (d : RDoc) : RDoc :=
  { d with score := match d.score with
                    | .relNum q => .relNum q
                    | _ => .relNum (1/2) }

/-- Conversion of an unfiltered fallback hit in _fallback_retrieval: the
score is always the default 0.5. -/
def fallbackHit (d : RDoc) : RDoc := { d with score := .relNum (1/2) }

/-- Outcome of one vector store search call: the call raised (caught and
treated as an empty result list at its call site) or returned hits. -/
inductive SearchOutcome
  | raises
  | hits (l : List RDoc)
  deriving Repr

/-- Environment for one execute call: the outcome of the filtered search,
of the unfiltered fallback search, and of the broader diversity search. -/
structure RetrieverOracle where
  filtered : SearchOutcome
  fallback : SearchOutcome
  broader : SearchOutcome

/-- The document list a search stage delivers: an exception is caught
inside _similarity_search_with_score and _fallback_retrieval and becomes
an empty list. -/
def searchDocs : SearchOutcome → List RDoc
  | .raises => []
  | .hits l => l

/-- Ghost log entry for one backend call issued by execute. -/
inductive BackendCall
  | filteredSearch (query : String) (k : ℕ)
  | fallbackSearch (query : String) (k : ℕ)
  | broaderSearch (query : String) (k : ℕ)
  deriving Repr, DecidableEq

/-- The result dict of RetrieverAgent.execute, with a ghost log of the
backend calls issued. -/
structure RetrieveResult where
  status : String
  message : Option String
  chunks : List RDoc
  totalResults : ℕ
  calls : List BackendCall
  deriving Repr

/-- The deduplicating append of the diversity fallback in execute: walk the
broader results, appending each whose first-100-character content preview
is unseen, while fewer than top_k documents are held. -/
def dedupAppend (base : List RDoc) (extra : List RDoc) (topK : ℕ) : List RDoc :=
  (extra.foldl
    (fun (acc : List RDoc × List String) r =>
      let preview : String := ⟨r.content.data.take 100⟩
      if preview ∉ acc.2 ∧ acc.1.length < topK then
        (acc.1 ++ [r], acc.2 ++ [preview])
      else acc)
    (base, base.map (fun d => (⟨d.content.data.take 100⟩ : String)))).1

/-- RetrieverAgent.execute, translated control-flow step by control-flow
step.  storeAvailable models the availability check on self.vector_store;
storeType models getattr(self.vector_store, type, unknown).  The call to
self._create_faiss_filter on the non-Pinecone branch has no definition
anywhere in the repository, so it raises AttributeError, which the
enclosing try swallows into the generic error result; the model returns
that error result directly on this branch. -/
def retrieverExecute (o : RetrieverOracle) (storeAvailable : Bool) (storeType : String)
    (query : String) (topK : Option ℕ) (docType : Option String)
    (minFeedbackScore : Option ℤ) : RetrieveResult :=
  if query = "" ∨ pyStrip query = "" then
    { status := "error", message := some "Empty query provided"
      chunks := [], totalResults := 0, calls := [] }
  else
    let topKv : ℕ := match topK with
                     | none => 8
                     | some k => if k = 0 then 8 else k
    if ¬ storeAvailable then
      { status := "error", message := some "Vector store not available"
        chunks := [], totalResults := 0, calls := [] }
    else
      let vst := pyLower storeType
      if ¬ strHasSub vst "pinecone" then
        { status := "error", message := some "AttributeError: _create_faiss_filter"
          chunks := [], totalResults := 0, calls := [] }
      else
        let searchK := min (topKv * 2) 20
        let filteredRes := searchDocs o.filtered
        let calls0 := [BackendCall.filteredSearch query searchK]
        let step1 : List RDoc × List BackendCall :=
          if filteredRes.isEmpty then
            ((searchDocs o.fallback).map fallbackHit,
             calls0 ++ [BackendCall.fallbackSearch query searchK])
          else
            (filteredRes.map convertHit, calls0)
        let docs1 := step1.1
        let docs2 :=
          if vst = "faiss" ∧ minFeedbackScore.isSome ∧ ¬ docs1.isEmpty then
            docs1.filter (fun d => passesScoreFilter (minFeedbackScore.getD 0) d.feedback)
          else docs1
        let docs3 :=
          match docType with
          | some dt =>
            if dt ≠ "" ∧ ¬ docs2.isEmpty then
              docs2.filter (fun d => d.docType = some dt)
            else docs2
          | none => docs2
        let docs4 := if ¬ docs3.isEmpty then rerankDocuments docs3 else docs3
        let docs5 := docs4.take topKv
        let step2 : List RDoc × List BackendCall :=
          if docs5.length < 2 ∧ ¬ (pyStrip query = "") then
            let broadQuery : String := ⟨joinSpace ((splitWS query.data).take 3)⟩
            if broadQuery ≠ query then
              (dedupAppend docs5 ((searchDocs o.broader).map fallbackHit) topKv,
               step1.2 ++ [BackendCall.broaderSearch broadQuery 5])
            else (docs5, step1.2)
          else (docs5, step1.2)
        { status := "success", message := none
          chunks := step2.1, totalResults := step2.1.length, calls := step2.2 }

/-! ## Draft generation fallback (DocGenerationAgent.py) -/

/-- The deterministic templated fallback of _create_fallback_document:
title from the document type and summary, an overview paragraph from the
summary, a requirements bullet list obtained by splitting the requirements
on newlines (stripping each line and prepending a dash unless the line
already starts with a dash or a star), and a boilerplate conclusion. -/
def createFallbackDocument (summary requirements docType : String) : String :=
  let docTitle : String :=
    (docType ++ " Document") ++ (if summary = "" then "" else ": " ++ summary)
  let overview : String :=
    if summary = "" then "This document outlines the requirements and specifications.\n\n"
    else summary ++ "\n\n"
  let reqLines : String :=
    if requirements = "" then
      "- Core functionality requirements to be defined\n" ++
      "- Performance requirements to be specified\n" ++
      "- Security requirements to be outlined\n"
    else
      ⟨((splitOnChar '\n' requirements.data).map (fun lineChars =>
          let l := stripChars lineChars
          if ¬ l.isEmpty ∧ ¬ leadsWith ['-'] l ∧ ¬ leadsWith ['*'] l then
            ('-' :: ' ' :: l) ++ ['\n']
          else if ¬ l.isEmpty then l ++ ['\n']
          else [])).flatten⟩
  ("# " ++ docTitle ++ "\n\n" ++ "## Overview\n" ++ overview ++ "## Requirements\n" ++ reqLines)
    ++ "\n## Conclusion\nThis document serves as the foundation for the project requirements and will be updated as needed.\n"

/-- Outcome of one text-completion call: the call raised, or returned a
string. -/
inductive LLMOutcome
  | raises
  | returns (s : String)
  deriving Repr

/-- Result of _generate_draft: the generated content and a ghost count of
completion calls issued (the continuation call being the second). -/
structure DraftResult where
  content : String
  llmCalls : ℕ
  deriving Repr, DecidableEq

/-- DocGenerationAgent._generate_draft: validate that a summary or
requirements is present, invoke the completion capability, substitute the
deterministic fallback when the output is blank, and issue one
continuation call when the substring Conclusion is absent, concatenating
the results; any exception in the try block (the first call or the
continuation call raising) resolves to the fallback document. -/
def generateDraft (first cont : LLMOutcome) (summaryRaw requirementsRaw docType : String) :
    DraftResult :=
  let summary := pyStrip summaryRaw
  let requirements := pyStrip requirementsRaw
  if summary = "" ∧ requirements = "" then
    { content := "# Error\n\nNo input provided for document generation", llmCalls := 0 }
  else
    match first with
    | .raises => { content := createFallbackDocument summary requirements docType, llmCalls := 1 }
    | .returns g =>
      let g1 := if pyStrip g = "" then createFallbackDocument summary requirements docType else g
      if strHasSub g1 "Conclusion" then { content := g1, llmCalls := 1 }
      else
        match cont with
        | .raises =>
          { content := createFallbackDocument summary requirements docType, llmCalls := 2 }
        | .returns c => { content := g1 ++ "\n\n" ++ c, llmCalls := 2 }

/-- Result dict of DocGenerationAgent.execute and _direct_generation. -/
structure GenResult where
  status : String
  content : String
  wordCountR : ℕ
  deriving Repr, DecidableEq

/-- DocGenerationAgent._direct_generation: one completion call with a fixed
default style and no context; blank or failed output resolves to the
deterministic fallback built from the raw (unstripped) arguments; the
returned status is success in every case. -/
def directGeneration (llm : LLMOutcome) (summary requirements docType : String) : GenResult :=
  match llm with
  | .raises =>
    let c := createFallbackDocument summary requirements docType
    { status := "success", content := c, wordCountR := wordCount c }
  | .returns g =>
    let c := if pyStrip g = "" then createFallbackDocument summary requirements docType else g
    { status := "success", content := c, wordCountR := wordCount c }

/-- Outcome of the inner LangGraph workflow invocation in
DocGenerationAgent.execute: raised, timed out, returned a non-dict value,
or returned a state whose final_content is the given optional string. -/
inductive GraphOutcome
  | graphRaises
  | graphTimeout
  | graphInvalid
  | graphReturns (finalContent : Option String)
  deriving Repr

/-- DocGenerationAgent.execute: reject empty input with an error dict;
convert a workflow timeout, exception, invalid result, or blank final
content into a _direct_generation attempt; otherwise return the stripped
final content with status success. -/
def docGenExecute (g : GraphOutcome) (llm : LLMOutcome)
    (summary requirements docType : String) : GenResult :=
  if summary = "" ∧ requirements = "" then
    { status := "error", content := "", wordCountR := 0 }
  else
    match g with
    | .graphRaises => directGeneration llm summary requirements docType
    | .graphTimeout => directGeneration llm summary requirements docType
    | .graphInvalid => directGeneration llm summary requirements docType
    | .graphReturns fc =>
      let final := pyStrip (fc.getD "")
      if final = "" then directGeneration llm summary requirements docType
      else { status := "success", content := final, wordCountR := wordCount final }

/-! ## Orchestrator public entry point (workflow.py,
execute_generation_workflow) -/

/-- Outcome of awaiting self.workflow.ainvoke in
execute_generation_workflow: the engine raised, or returned a final
state. -/
inductive EngineOutcome
  | raises (msg : String)
  | returns (st : WFState)

/-- The response execute_generation_workflow hands its caller: either the
normal response dict (whose content key carries final_document, possibly
null), or the except-branch dict, which has status failed, an error
message, and no content key at all. -/
inductive WFResponse
  | ok (workflowId : String) (status : String) (content : Option String) (err : Option String)
  | failedNoContent (workflowId : String) (status : String) (error : String)
  deriving Repr, DecidableEq

/-- execute_generation_workflow: build the response from the engine result,
or convert an escaping exception into the failed response dict. -/
def executeGenerationWorkflow (workflowId : String) (engine : EngineOutcome) : WFResponse :=
  match engine with
  | .raises msg => .failedNoContent workflowId "failed" msg
  | .returns st => .ok workflowId st.workflowStatus st.finalDocument st.errorMessage

/-- Whether a response carries a non-empty document body for the caller. -/
def responseHasContent : WFResponse → Bool
  | .ok _ _ (some c) _ => ¬ (c = "")
  | .ok _ _ none _ => false
  | .failedNoContent _ _ _ => false

/-! ## Helper lemmas -/

lemma hasSubL_append_right (n a b : List Char) (h : hasSubL n b = true) :
    hasSubL n (a ++ b) = true := by
  induction a with
  | nil => simpa using h
  | cons x a' ih => simp [hasSubL, ih]

lemma strHasSub_append_right (x y n : String) (h : strHasSub y n = true) :
    strHasSub (x ++ y) n = true := by
  rw [strHasSub, String.data_append]
  exact hasSubL_append_right _ _ _ h

lemma conclusion_in_fallback (s r d : String) :
    strHasSub (createFallbackDocument s r d) "Conclusion" = true := by
  simp only [createFallbackDocument]
  exact strHasSub_append_right _ _ _ (by decide)

lemma createFallbackDocument_ne_empty (s r d : String) :
    createFallbackDocument s r d ≠ "" := by
  intro h
  have h2 := congrArg String.data h
  simp only [createFallbackDocument, String.data_append] at h2
  simp at h2

lemma pyStrip_ne_empty {g : String} (h : ¬ pyStrip g = "") : g ≠ "" := by
  intro he
  subst he
  exact h rfl

/-! ## Claim theorems -/

/-- C8: the compliance check returns compliant with no missing sections
exactly when every required section name for the document type (for SRS:
Introduction, Requirements, Specifications; a generic three-section
default for unknown types) occurs case-insensitively in the content and
the whitespace-split word count is at least 500; a word count below 500
appends the incompleteness issue and forces non-compliance. -/
theorem compliance_check_characterization (docType content : String) :
    ((complianceCheckFn docType content).compliant = true ∧
       (complianceCheckFn docType content).missingSections = [] ↔
     (∀ sec ∈ getRequiredSections docType, strHasSubCI content sec = true) ∧
       500 ≤ wordCount content) ∧
    (wordCount content < 500 →
       (complianceCheckFn docType content).compliant = false ∧
       (complianceCheckFn docType content).issues =
         ["Document too short - likely incomplete or truncated"]) ∧
    getRequiredSections "SRS" = ["Introduction", "Requirements", "Specifications"] ∧
    (docType ∉ ["SRS", "SOW", "Proposal", "Technical", "Business"] →
       getRequiredSections docType = ["Introduction", "Content", "Conclusion"]) := by
  refine ⟨?_, ?_, rfl, ?_⟩
  · simp only [complianceCheckFn, List.isEmpty_iff, Bool.and_eq_true, List.filter_eq_nil_iff,
      decide_eq_true_eq, not_not, Bool.not_eq_true']
    constructor
    · rintro ⟨⟨hall, hshort⟩, -⟩
      refine ⟨fun sec hs => by simpa using hall sec hs, by omega⟩
    · rintro ⟨hall, hlen⟩
      have hmiss : ∀ sec ∈ getRequiredSections docType,
          ¬ (strHasSubCI content sec = false) := by
        intro sec hs
        simp [hall sec hs]
      constructor
      · constructor
        · intro sec hs
          simpa using hmiss sec hs
        · simpa using (by omega : ¬ wordCount content < 500)
      · intro sec hs
        simpa using hmiss sec hs
  · intro hshort
    constructor
    · simp [complianceCheckFn, hshort]
    · simp [complianceCheckFn, hshort]
  · intro hmem
    simp only [List.mem_cons, List.mem_singleton, not_or] at hmem
    obtain ⟨h1, h2, h3, h4, h5, -⟩ := hmem
    simp [getRequiredSections, h1, h2, h3, h4, h5]

/-- C8 witness: a short document for an unknown type is evaluated
concretely through the theorem. -/
theorem compliance_check_characterization_witness :
    (complianceCheckFn "SRS" "too short").compliant = false ∧
    (complianceCheckFn "SRS" "too short").issues =
      ["Document too short - likely incomplete or truncated"] :=
  (compliance_check_characterization "SRS" "too short").2.1 (by decide)

/-- C9: a query that is empty or whitespace-only is rejected with an error
result carrying zero chunks, and no backend call is issued. -/
theorem empty_query_rejected (o : RetrieverOracle) (storeAvailable : Bool)
    (storeType query : String) (topK : Option ℕ) (docType : Option String)
    (minFeedbackScore : Option ℤ) (h : pyStrip query = "") :
    retrieverExecute o storeAvailable storeType query topK docType minFeedbackScore =
      { status := "error", message := some "Empty query provided"
        chunks := [], totalResults := 0, calls := [] } := by
  rw [retrieverExecute.eq_def, if_pos (Or.inr h)]

/-- C9 witness: both the empty query and a whitespace-only query are
rejected concretely through the theorem. -/
theorem empty_query_rejected_witness :
    retrieverExecute ⟨.raises, .raises, .raises⟩ true "faiss" "" (some 5) none none =
      { status := "error", message := some "Empty query provided"
        chunks := [], totalResults := 0, calls := [] } ∧
    retrieverExecute ⟨.raises, .raises, .raises⟩ true "pinecone" "   " (some 5) none none =
      { status := "error", message := some "Empty query provided"
        chunks := [], totalResults := 0, calls := [] } :=
  ⟨empty_query_rejected _ _ _ _ _ _ _ (by decide),
   empty_query_rejected _ _ _ _ _ _ _ (by decide)⟩

/-- C4 counterexample: at quality_score 0.7 the code persists feedback
score 3 (int() truncation of 3.5), while the claimed formula
round(clamp(quality_score, 0, 1) * 5) clamped to 1..5 yields 4. -/
theorem finalize_feedback_round_counterexample :
    feedbackScoreOfQuality (7/10) = 3 ∧ specRoundFeedbackScore (7/10) = 4 := by
  constructor
  · rw [feedbackScoreOfQuality, ratTrunc, if_pos (by norm_num : (0:ℚ) ≤ 7/10 * 5)]
    norm_num
  · rw [specRoundFeedbackScore]
    norm_num [round_eq]

/-- C4 (amended): at finalization the persisted integer feedback score is
max(1, min(5, int(quality_score * 5))), where int() truncates toward zero
(the floor for nonnegative quality scores) rather than rounding; the score
always lies in 1..5; and the finalized content selects the reviewed
document when it is a non-empty string, else the draft document. -/
theorem finalize_feedback_truncation (o : NodeOutcome) (s : WFState)
    (h : o.throws = false) :
    (runNode o .finalizeDocN s).persistedFeedbackScore =
      some (feedbackScoreOfQuality s.qualityScore) ∧
    (runNode o .finalizeDocN s).finalDocument =
      some (pyStrOr s.reviewedDocument (pyStrOr s.draftDocument "")) ∧
    (0 ≤ s.qualityScore →
      feedbackScoreOfQuality s.qualityScore = max 1 (min 5 ⌊s.qualityScore * 5⌋)) ∧
    1 ≤ feedbackScoreOfQuality s.qualityScore ∧
    feedbackScoreOfQuality s.qualityScore ≤ 5 := by
  refine ⟨by simp [runNode, h], by simp [runNode, h], ?_, le_max_left _ _, ?_⟩
  · intro hq
    rw [feedbackScoreOfQuality, ratTrunc, if_pos (mul_nonneg hq (by norm_num))]
  · exact max_le (by norm_num) (min_le_left _ _)

/-- C4 witness: a concrete finalization step evaluated through the
theorem, persisting feedback score 3 from the initial quality 0.7. -/
theorem finalize_feedback_truncation_witness :
    (runNode ⟨false, false, "", "", 0⟩ .finalizeDocN
        (initState "SRS" "a" "b" 3)).persistedFeedbackScore = some 3 := by
  have h := (finalize_feedback_truncation ⟨false, false, "", "", 0⟩
    (initState "SRS" "a" "b" 3) rfl).1
  rw [h, show (initState "SRS" "a" "b" 3).qualityScore = 7/10 from rfl,
    feedbackScoreOfQuality, ratTrunc, if_pos (by norm_num : (0:ℚ) ≤ 7/10 * 5)]
  norm_num

/-- C7 counterexample: when the workflow engine raises, the public entry
point returns the failed response with no content key at all, so the
caller receives no best-effort document body and no direct-generation
fallback is attempted at this level. -/
theorem orchestrator_no_fallback_counterexample :
    executeGenerationWorkflow "wf-1" (.raises "boom") =
      .failedNoContent "wf-1" "failed" "boom" ∧
    responseHasContent (executeGenerationWorkflow "wf-1" (.raises "boom")) = false :=
  ⟨rfl, rfl⟩

/-- C7 (amended): execute_generation_workflow never propagates an engine
exception: it converts the failure into a status failed response with the
error message, but that response carries no document body and no
direct-generation fallback happens at the orchestrator level; the final
direct-generation fallback lives one level down, in the Draft Generator
execute, which turns an engine failure into a success result with
non-empty best-effort content. -/
theorem orchestrator_failure_conversion (wid msg : String) (st : WFState)
    (llm : LLMOutcome) (s r d : String) (h : ¬ (s = "" ∧ r = "")) :
    executeGenerationWorkflow wid (.raises msg) = .failedNoContent wid "failed" msg ∧
    responseHasContent (executeGenerationWorkflow wid (.raises msg)) = false ∧
    executeGenerationWorkflow wid (.returns st) =
      .ok wid st.workflowStatus st.finalDocument st.errorMessage ∧
    (docGenExecute .graphRaises llm s r d).status = "success" ∧
    ¬ ((docGenExecute .graphRaises llm s r d).content = "") := by
  refine ⟨rfl, rfl, rfl, ?_, ?_⟩
  · rw [docGenExecute, if_neg h]
    cases llm <;> rfl
  · rw [docGenExecute, if_neg h]
    cases llm with
    | raises => exact createFallbackDocument_ne_empty _ _ _
    | returns g =>
      rw [directGeneration]
      by_cases hg : pyStrip g = ""
      · simpa [hg] using createFallbackDocument_ne_empty s r d
      · simpa [hg] using pyStrip_ne_empty hg

/-- C7 witness: the amended statement evaluated at a concrete failing run
and a concrete direct-generation input. -/
theorem orchestrator_failure_conversion_witness :
    executeGenerationWorkflow "wf-2" (.raises "node crashed") =
      .failedNoContent "wf-2" "failed" "node crashed" ∧
    (docGenExecute .graphRaises .raises "Inventory system" "- track stock" "SRS").status =
      "success" :=
  ⟨(orchestrator_failure_conversion "wf-2" "node crashed"
      (initState "SRS" "a" "b" 3) .raises "Inventory system" "- track stock" "SRS"
      (by simp)).1,
   (orchestrator_failure_conversion "wf-2" "node crashed"
      (initState "SRS" "a" "b" 3) .raises "Inventory system" "- track stock" "SRS"
      (by simp)).2.2.2.1⟩

/-- C6: when the completion capability raises or returns blank output (and
at least one of summary and requirements is non-empty after stripping),
the generated draft is exactly the deterministic templated fallback
document of the stripped inputs, produced with a single completion
attempt, no continuation call, and independently of the continuation
oracle, so two runs on the same inputs are byte-identical. -/
theorem generation_failure_fallback (first cont : LLMOutcome)
    (summaryRaw requirementsRaw docType : String)
    (hfail : first = .raises ∨ ∃ s, first = .returns s ∧ pyStrip s = "")
    (hinput : ¬ (pyStrip summaryRaw = "" ∧ pyStrip requirementsRaw = "")) :
    generateDraft first cont summaryRaw requirementsRaw docType =
      { content := createFallbackDocument (pyStrip summaryRaw)
          (pyStrip requirementsRaw) docType
        llmCalls := 1 } ∧
    ∀ cont', generateDraft first cont' summaryRaw requirementsRaw docType =
      generateDraft first cont summaryRaw requirementsRaw docType := by
  rcases hfail with rfl | ⟨g, rfl, hg⟩
  · exact ⟨by rw [generateDraft, if_neg hinput], fun cont' => by
      rw [generateDraft, if_neg hinput, generateDraft, if_neg hinput]⟩
  · constructor
    · rw [generateDraft, if_neg hinput]
      simp only [hg, if_pos, ite_true, conclusion_in_fallback, if_true]
    · intro cont'
      rw [generateDraft, if_neg hinput, generateDraft, if_neg hinput]
      simp only [hg, if_pos, ite_true, conclusion_in_fallback, if_true]

/-- C6 witness: the fallback equation evaluated concretely through the
theorem with a raising completion capability. -/
theorem generation_failure_fallback_witness :
    generateDraft .raises (.returns "ignored") "Inventory system " "- track stock" "SRS" =
      { content := createFallbackDocument "Inventory system" "- track stock" "SRS"
        llmCalls := 1 } := by
  have h := (generation_failure_fallback .raises (.returns "ignored")
    "Inventory system " "- track stock" "SRS" (Or.inl rfl) (by decide)).1
  rw [h, show pyStrip "Inventory system " = "Inventory system" from by decide,
    show pyStrip "- track stock" = "- track stock" from by decide]

/-- C5: evaluation of the code at the failing input.  With the local
(non-Pinecone) backend active and a non-empty query, execute reaches the
call to the undefined method _create_faiss_filter, whose AttributeError is
swallowed by the outermost handler: the result is status error with empty
chunks and no backend call at all, even though the backend holds matching
documents — the filtered search is never issued, the unfiltered fallback
retry never happens, and the per-stage exception handling never gets a
chance to run. -/
theorem faiss_branch_missing_method :
    retrieverExecute
      ⟨.hits [⟨"prior srs document", some "SRS", .num 4, .relNum (9/10)⟩],
       .hits [⟨"prior srs document", some "SRS", .num 4, .relNum (9/10)⟩],
       .hits []⟩
      true "faiss" "inventory tracking system" (some 5) (some "SRS") (some 3) =
      { status := "error", message := some "AttributeError: _create_faiss_filter"
        chunks := [], totalResults := 0, calls := [] } := by
  rw [retrieverExecute.eq_def,
    if_neg (by decide :
      ¬ ("inventory tracking system" = "" ∨ pyStrip "inventory tracking system" = ""))]
  rfl

/-! ## Reranking theorems (C3) -/

lemma rerank_le_trans (a b c : RDoc)
    (h1 : decide (rankingScore b ≤ rankingScore a) = true)
    (h2 : decide (rankingScore c ≤ rankingScore b) = true) :
    decide (rankingScore c ≤ rankingScore a) = true := by
  simp only [decide_eq_true_eq] at *
  exact le_trans h2 h1

lemma rerank_le_total (a b : RDoc) :
    (decide (rankingScore b ≤ rankingScore a) ||
     decide (rankingScore a ≤ rankingScore b)) = true := by
  rcases le_total (rankingScore b) (rankingScore a) with h | h <;> simp [h]

lemma perm_pair_cases {α : Type*} {l : List α} {a b : α} (h : l.Perm [a, b]) :
    l = [a, b] ∨ l = [b, a] := by
  obtain ⟨x, y, rfl⟩ := List.length_eq_two.mp (by simpa using h.length_eq)
  have hx : x ∈ [a, b] := h.mem_iff.mp (by simp)
  simp only [List.mem_cons, List.mem_singleton, List.not_mem_nil, or_false] at hx
  rcases hx with rfl | rfl
  · have h2 : [y] = [b] := List.perm_singleton.mp h.cons_inv
    left
    simp at h2
    rw [h2]
  · have h3 : ([x, y] : List α).Perm [x, a] := h.trans (List.Perm.swap x a [])
    have h4 : [y] = [a] := List.perm_singleton.mp h3.cons_inv
    right
    simp at h4
    rw [h4]

/-- C3 counterexample: under the fused score the claim states (missing
feedback scored as the neutral 3), the document with relevance 0.6 and
missing feedback outranks the document with relevance 0.65 and feedback 1;
the code instead scores missing feedback as 0 (the metadata default),
so the reranker places the second document first. -/
theorem rerank_missing_feedback_counterexample :
    rerankDocuments
      [⟨"docA", some "SRS", .missing, .relNum (6/10)⟩,
       ⟨"docB", some "SRS", .num 1, .relNum (65/100)⟩] =
      [⟨"docB", some "SRS", .num 1, .relNum (65/100)⟩,
       ⟨"docA", some "SRS", .missing, .relNum (6/10)⟩] ∧
    specFusedScore ⟨"docB", some "SRS", .num 1, .relNum (65/100)⟩ <
      specFusedScore ⟨"docA", some "SRS", .missing, .relNum (6/10)⟩ := by
  have hBA : specFusedScore ⟨"docB", some "SRS", .num 1, .relNum (65/100)⟩ <
      specFusedScore ⟨"docA", some "SRS", .missing, .relNum (6/10)⟩ := by
    simp only [specFusedScore, relevanceVal, ratTrunc]
    rw [if_pos (by norm_num : (0:ℚ) ≤ 1)]
    norm_num
  refine ⟨?_, hBA⟩
  have hscore : rankingScore ⟨"docB", some "SRS", .num 1, .relNum (65/100)⟩ ≤
      rankingScore ⟨"docA", some "SRS", .missing, .relNum (6/10)⟩ → False := by
    simp only [rankingScore, relevanceVal, feedbackIntRerank, normalizedFeedback, ratTrunc]
    rw [if_pos (by norm_num : (0:ℚ) ≤ 1)]
    norm_num
  have hperm : (rerankDocuments
      [⟨"docA", some "SRS", .missing, .relNum (6/10)⟩,
       ⟨"docB", some "SRS", .num 1, .relNum (65/100)⟩]).Perm
      [⟨"docA", some "SRS", .missing, .relNum (6/10)⟩,
       ⟨"docB", some "SRS", .num 1, .relNum (65/100)⟩] :=
    List.mergeSort_perm _ _
  have hsort : (rerankDocuments
      [⟨"docA", some "SRS", .missing, .relNum (6/10)⟩,
       ⟨"docB", some "SRS", .num 1, .relNum (65/100)⟩]).Pairwise
      (fun a b => decide (rankingScore b ≤ rankingScore a) = true) :=
    List.sorted_mergeSort rerank_le_trans rerank_le_total _
  rcases perm_pair_cases hperm with h | h
  · exfalso
    rw [h] at hsort
    simp only [List.pairwise_cons, List.mem_singleton, decide_eq_true_eq] at hsort
    exact hscore (hsort.1 _ rfl)
  · exact h

/-- C3 (amended): the reranker orders the surviving candidates as a stable
descending sort by the fused score 0.7 * relevance + 0.3 * normalized
feedback, where a candidate with feedback missing from its metadata
contributes 0 (the metadata default 0 fails the positivity test), while an
unparseable feedback value gets the neutral default 3 (normalized 0.5);
the output is a permutation of the input, ties keep their prior relative
order, the fused score is strictly monotone in relevance at equal
feedback, and a strictly higher-scored candidate always ranks strictly
earlier. -/
theorem rerank_fused_order (docs : List RDoc) :
    (rerankDocuments docs).Perm docs ∧
    (rerankDocuments docs).Pairwise (fun a b => rankingScore b ≤ rankingScore a) ∧
    (∀ d : RDoc, d.feedback = .missing →
       rankingScore d = 7/10 * relevanceVal d.score) ∧
    (∀ d : RDoc, d.feedback = .bad →
       rankingScore d = 7/10 * relevanceVal d.score + 3/10 * (1/2)) ∧
    (∀ d₁ d₂ : RDoc, feedbackIntRerank d₁.feedback = feedbackIntRerank d₂.feedback →
       relevanceVal d₂.score < relevanceVal d₁.score →
       rankingScore d₂ < rankingScore d₁) ∧
    (∀ i j : Fin (rerankDocuments docs).length,
       rankingScore ((rerankDocuments docs).get j) <
         rankingScore ((rerankDocuments docs).get i) → i < j) ∧
    (∀ a b : RDoc, rankingScore a = rankingScore b →
       List.Sublist [a, b] docs → List.Sublist [a, b] (rerankDocuments docs)) := by
  have hsorted : (rerankDocuments docs).Pairwise
      (fun a b => rankingScore b ≤ rankingScore a) := by
    have h := List.sorted_mergeSort rerank_le_trans rerank_le_total docs
    exact h.imp (fun hab => by simpa using hab)
  refine ⟨List.mergeSort_perm docs _, hsorted, ?_, ?_, ?_, ?_, ?_⟩
  · intro d hd
    simp [rankingScore, hd, feedbackIntRerank, normalizedFeedback]
  · intro d hd
    simp only [rankingScore, hd, feedbackIntRerank, normalizedFeedback]
    norm_num
  · intro d₁ d₂ hfb hrel
    simp only [rankingScore, hfb]
    have h7 : (0:ℚ) < 7/10 := by norm_num
    nlinarith
  · intro i j hlt
    by_contra hij
    push_neg at hij
    rcases lt_or_eq_of_le hij with hji | hji
    · have := (List.pairwise_iff_get.mp hsorted) j i hji
      exact absurd hlt (not_lt.mpr this)
    · rw [← hji] at hlt
      exact lt_irrefl _ hlt
  · intro a b hab hsub
    exact List.pair_sublist_mergeSort rerank_le_trans rerank_le_total
      (by simp [hab]) hsub

/-- C3 witness: the strict-monotonicity clause of the theorem evaluated at
two concrete documents with equal feedback and different relevance. -/
theorem rerank_fused_order_witness :
    rankingScore ⟨"low", none, .num 4, .relNum (1/2)⟩ <
      rankingScore ⟨"high", none, .num 4, .relNum (9/10)⟩ :=
  (rerank_fused_order []).2.2.2.2.1
    ⟨"high", none, .num 4, .relNum (9/10)⟩
    ⟨"low", none, .num 4, .relNum (1/2)⟩
    rfl (by simp only [relevanceVal]; norm_num)

/-! ## Workflow run invariants (C1, C2, C10) -/

lemma wfRun_zero (env : ℕ → NodeOutcome) (t : ℕ) (n : Node) (s : WFState) :
    wfRun env 0 t n s = s := rfl

lemma wfRun_succ (env : ℕ → NodeOutcome) (fuel t : ℕ) (n : Node) (s : WFState) :
    wfRun env (fuel + 1) t n s =
      match routeAfter n (runNode (env t) n s) with
      | none => runNode (env t) n s
      | some n' => wfRun env fuel (t + 1) n' (runNode (env t) n s) := rfl

lemma quality_step_lb {q : ℚ} (h : 7/10 ≤ q) (c : ℕ) :
    7/10 ≤ min 1 (q + c * (5/100)) := by
  refine le_min (by norm_num) ?_
  have hc : (0:ℚ) ≤ c * (5/100) := by positivity
  linarith

lemma quality_step_ub (q : ℚ) (c : ℕ) : min 1 (q + c * (5/100)) ≤ 1 :=
  min_le_left _ _

/-- Run invariant: the quality score stays in the band the initial value
and the review update allow, and the ghost generator-invocation counter is
still zero before the generator node has run and at most one after. -/
def wfInv (n : Node) (s : WFState) : Prop :=
  7/10 ≤ s.qualityScore ∧ s.qualityScore ≤ 1 ∧
  (match n with
   | .initializeN | .buildStyleN | .retrieveCtxN | .generateDocN => s.genCalls = 0
   | _ => s.genCalls ≤ 1)

lemma wfInv_implies {n : Node} {s : WFState} (h : wfInv n s) :
    s.genCalls ≤ 1 ∧ 7/10 ≤ s.qualityScore ∧ s.qualityScore ≤ 1 := by
  obtain ⟨h1, h2, h3⟩ := h
  refine ⟨?_, h1, h2⟩
  cases n <;> simp_all

lemma shouldRegenerate_ne_regenerate {s : WFState} (h : 7/10 ≤ s.qualityScore) :
    shouldRegenerate s ≠ .regenerate := by
  unfold shouldRegenerate
  split_ifs with h1 h2 h3
  · simp
  · simp
  · exact absurd h3 (not_lt.mpr h)
  · simp

lemma shouldRegenerate_finalize {s : WFState} (h1 : s.errorMessage = none)
    (h2 : 7/10 ≤ s.qualityScore) : shouldRegenerate s = .finalize := by
  unfold shouldRegenerate
  rw [h1]
  simp only [Option.isSome_none, Bool.false_eq_true, if_false]
  split_ifs with hA hB
  · rfl
  · exact absurd hB (not_lt.mpr h2)
  · rfl

lemma wfInv_step (o : NodeOutcome) (n : Node) (s : WFState) (hInv : wfInv n s) :
    (∀ n', routeAfter n (runNode o n s) = some n' → wfInv n' (runNode o n s)) ∧
    ((runNode o n s).genCalls ≤ 1 ∧ 7/10 ≤ (runNode o n s).qualityScore ∧
      (runNode o n s).qualityScore ≤ 1) := by
  obtain ⟨hq1, hq2, hg⟩ := hInv
  cases n with
  | initializeN =>
    simp only [runNode, setError] at *
    split_ifs <;>
      exact ⟨fun n' hn' => by
        simp only [routeAfter, Option.some_inj] at hn'
        subst hn'
        exact ⟨hq1, hq2, hg⟩, by simp_all⟩
  | buildStyleN =>
    simp only [runNode, setError] at *
    split_ifs <;>
      exact ⟨fun n' hn' => by
        simp only [routeAfter, Option.some_inj] at hn'
        subst hn'
        exact ⟨hq1, hq2, hg⟩, by simp_all⟩
  | retrieveCtxN =>
    simp only [runNode, setError] at *
    split_ifs <;>
      exact ⟨fun n' hn' => by
        simp only [routeAfter, Option.some_inj] at hn'
        subst hn'
        exact ⟨hq1, hq2, hg⟩, by simp_all⟩
  | generateDocN =>
    simp only [runNode, setError] at *
    split_ifs <;>
      exact ⟨fun n' hn' => by
        simp only [routeAfter, Option.some_inj] at hn'
        subst hn'
        exact ⟨hq1, hq2, by simp [hg]⟩, by simp_all⟩
  | complianceN =>
    have hroute : ∀ s' : WFState, 7/10 ≤ s'.qualityScore → s'.qualityScore ≤ 1 →
        s'.genCalls ≤ 1 →
        (∀ n', routeAfter .complianceN s' = some n' → wfInv n' s') := by
      intro s' ha hb hc n' hn'
      simp only [routeAfter] at hn'
      cases hrev : shouldReview s' <;> rw [hrev] at hn' <;>
        simp only [Option.some_inj] at hn' <;> subst hn' <;> exact ⟨ha, hb, hc⟩
    have hg1 : s.genCalls ≤ 1 := hg
    simp only [runNode, setError] at *
    split_ifs
    · exact ⟨hroute _ hq1 hq2 hg1, hg1, hq1, hq2⟩
    · cases hd : s.draftDocument with
      | none => exact ⟨hroute _ hq1 hq2 hg1, hg1, hq1, hq2⟩
      | some content => exact ⟨hroute _ hq1 hq2 hg1, hg1, hq1, hq2⟩
  | reviewDocN =>
    have hg1 : s.genCalls ≤ 1 := hg
    have hroute : ∀ s' : WFState, 7/10 ≤ s'.qualityScore → s'.qualityScore ≤ 1 →
        s'.genCalls ≤ 1 →
        (∀ n', routeAfter .reviewDocN s' = some n' → wfInv n' s') := by
      intro s' ha hb hc n' hn'
      simp only [routeAfter] at hn'
      cases hreg : shouldRegenerate s' <;> rw [hreg] at hn'
      · exact absurd hreg (shouldRegenerate_ne_regenerate ha)
      · simp only [Option.some_inj] at hn'
        subst hn'
        exact ⟨ha, hb, hc⟩
      · simp only [Option.some_inj] at hn'
        subst hn'
        exact ⟨ha, hb, hc⟩
    simp only [runNode, setError] at *
    split_ifs
    · exact ⟨hroute _ hq1 hq2 hg1, hg1, hq1, hq2⟩
    · exact ⟨hroute _ hq1 hq2 hg1, hg1, hq1, hq2⟩
    · exact ⟨hroute _ (quality_step_lb hq1 _) (quality_step_ub _ _) hg1,
        hg1, quality_step_lb hq1 _, quality_step_ub _ _⟩
  | finalizeDocN =>
    have hg1 : s.genCalls ≤ 1 := hg
    simp only [runNode] at *
    split_ifs <;> exact ⟨fun n' hn' => by simp [routeAfter] at hn', hg1, hq1, hq2⟩
  | handleErrorN =>
    have hg1 : s.genCalls ≤ 1 := hg
    simp only [runNode] at *
    exact ⟨fun n' hn' => by simp [routeAfter] at hn', hg1, hq1, hq2⟩

lemma wfRun_inv (env : ℕ → NodeOutcome) :
    ∀ fuel t (n : Node) (s : WFState), wfInv n s →
      (wfRun env fuel t n s).genCalls ≤ 1 ∧
      7/10 ≤ (wfRun env fuel t n s).qualityScore ∧
      (wfRun env fuel t n s).qualityScore ≤ 1 := by
  intro fuel
  induction fuel with
  | zero => intro t n s h; simpa [wfRun_zero] using wfInv_implies h
  | succ fuel ih =>
    intro t n s h
    rw [wfRun_succ]
    obtain ⟨hstep, hfin⟩ := wfInv_step (env t) n s h
    cases hr : routeAfter n (runNode (env t) n s) with
    | none => simpa using hfin
    | some n' => simpa using ih (t + 1) n' _ (hstep n' hr)

lemma wfInv_init (docType summary requirements : String) (N : ℕ) :
    wfInv .initializeN (initState docType summary requirements N) :=
  ⟨by norm_num [initState], by norm_num [initState], rfl⟩

/-- Symbolic execution of one complete run in which no node throws and no
agent returns None: the graph passes through its seven nodes once, the
post-review router finalizes (the quality score cannot drop below 0.7),
and the run completes with exactly one generator invocation. -/
lemma wfRun_clean (env : ℕ → NodeOutcome)
    (henv : ∀ t, (env t).throws = false ∧ (env t).agentNone = false)
    (m : ℕ) (d su r : String) (N : ℕ) :
    (wfRunFull env (m + 7) d su r N).genCalls = 1 ∧
    (wfRunFull env (m + 7) d su r N).iterationCount = 1 ∧
    (wfRunFull env (m + 7) d su r N).workflowStatus = "completed" := by
  set s0 := initState d su r N with hs0
  set s1 := runNode (env 0) Node.initializeN s0 with hs1
  set s2 := runNode (env 1) Node.buildStyleN s1 with hs2
  set s3 := runNode (env 2) Node.retrieveCtxN s2 with hs3
  set s4 := runNode (env 3) Node.generateDocN s3 with hs4
  set s5 := runNode (env 4) Node.complianceN s4 with hs5
  set s6 := runNode (env 5) Node.reviewDocN s5 with hs6
  set s7 := runNode (env 6) Node.finalizeDocN s6 with hs7
  have p1 : s1.errorMessage = none ∧ s1.qualityScore = 7/10 ∧ s1.genCalls = 0 ∧
      s1.iterationCount = 0 := by
    rw [hs1, hs0]
    simp [runNode, (henv 0).1, initState]
  have p2 : s2.errorMessage = none ∧ s2.qualityScore = 7/10 ∧ s2.genCalls = 0 ∧
      s2.iterationCount = 0 := by
    rw [hs2]
    simp [runNode, (henv 1).1, (henv 1).2, p1.1, p1.2.1, p1.2.2.1, p1.2.2.2]
  have p3 : s3.errorMessage = none ∧ s3.qualityScore = 7/10 ∧ s3.genCalls = 0 ∧
      s3.iterationCount = 0 := by
    rw [hs3]
    simp [runNode, (henv 2).1, (henv 2).2, p2.1, p2.2.1, p2.2.2.1, p2.2.2.2]
  have p4 : s4.errorMessage = none ∧ s4.qualityScore = 7/10 ∧ s4.genCalls = 1 ∧
      s4.iterationCount = 1 ∧ s4.draftDocument = some (env 3).genContent := by
    rw [hs4]
    simp [runNode, (henv 3).1, (henv 3).2, p3.1, p3.2.1, p3.2.2.1, p3.2.2.2]
  have p5 : s5.errorMessage = none ∧ s5.qualityScore = 7/10 ∧ s5.genCalls = 1 ∧
      s5.iterationCount = 1 := by
    rw [hs5]
    rw [show runNode (env 4) Node.complianceN s4 =
        (if (env 4).throws = true then setError s4 "exception" else
          match s4.draftDocument with
          | none => setError s4 "exception"
          | some content =>
            { s4 with complianceCheck := some (complianceCheckFn s4.docType content)
                      workflowStatus := "compliance_checked" }) from rfl]
    rw [(henv 4).1, p4.2.2.2.2]
    simp [p4.1, p4.2.1, p4.2.2.1, p4.2.2.2.1]
  have p6 : s6.errorMessage = none ∧ 7/10 ≤ s6.qualityScore ∧ s6.genCalls = 1 ∧
      s6.iterationCount = 1 := by
    rw [hs6]
    refine ⟨?_, ?_, ?_, ?_⟩
    · simp [runNode, (henv 5).1, (henv 5).2, p5.1]
    · have hq : (runNode (env 5) Node.reviewDocN s5).qualityScore =
          min 1 (s5.qualityScore + (env 5).reviewChanges * (5/100)) := by
        simp [runNode, (henv 5).1, (henv 5).2]
      rw [hq, p5.2.1]
      exact quality_step_lb (le_refl _) _
    · simp [runNode, (henv 5).1, (henv 5).2, p5.2.2.1]
    · simp [runNode, (henv 5).1, (henv 5).2, p5.2.2.2]
  have p7 : s7.genCalls = 1 ∧ s7.iterationCount = 1 ∧
      s7.workflowStatus = "completed" := by
    rw [hs7]
    simp [runNode, (henv 6).1, p6.2.2.1, p6.2.2.2]
  have r4 : routeAfter Node.complianceN s5 = some Node.reviewDocN := by
    simp [routeAfter, shouldReview, p5.1]
  have r5 : routeAfter Node.reviewDocN s6 = some Node.finalizeDocN := by
    simp [routeAfter, shouldRegenerate_finalize p6.1 p6.2.1]
  have c0 : wfRun env (m + 7) 0 Node.initializeN s0 =
      wfRun env (m + 6) 1 Node.buildStyleN s1 := by
    rw [show m + 7 = (m + 6) + 1 from rfl, wfRun_succ, ← hs1]
    rfl
  have c1 : wfRun env (m + 6) 1 Node.buildStyleN s1 =
      wfRun env (m + 5) 2 Node.retrieveCtxN s2 := by
    rw [show m + 6 = (m + 5) + 1 from rfl, wfRun_succ, ← hs2]
    rfl
  have c2 : wfRun env (m + 5) 2 Node.retrieveCtxN s2 =
      wfRun env (m + 4) 3 Node.generateDocN s3 := by
    rw [show m + 5 = (m + 4) + 1 from rfl, wfRun_succ, ← hs3]
    rfl
  have c3 : wfRun env (m + 4) 3 Node.generateDocN s3 =
      wfRun env (m + 3) 4 Node.complianceN s4 := by
    rw [show m + 4 = (m + 3) + 1 from rfl, wfRun_succ, ← hs4]
    rfl
  have c4 : wfRun env (m + 3) 4 Node.complianceN s4 =
      wfRun env (m + 2) 5 Node.reviewDocN s5 := by
    rw [show m + 3 = (m + 2) + 1 from rfl, wfRun_succ, ← hs5, r4]
  have c5 : wfRun env (m + 2) 5 Node.reviewDocN s5 =
      wfRun env (m + 1) 6 Node.finalizeDocN s6 := by
    rw [show m + 2 = (m + 1) + 1 from rfl, wfRun_succ, ← hs6, r5]
  have c6 : wfRun env (m + 1) 6 Node.finalizeDocN s6 = s7 := by
    rw [show m + 1 = m + 0 + 1 from rfl, wfRun_succ, ← hs7]
    rfl
  have : wfRunFull env (m + 7) d su r N = s7 := by
    rw [wfRunFull, ← hs0, c0, c1, c2, c3, c4, c5, c6]
  rw [this]
  exact p7

/-- C1 counterexample: with max_iterations 0 and a clean environment, the
workflow still invokes the Draft Generator once (the path to the generate
node is unconditional, and the iteration budget is only consulted after
review), so the invocation count exceeds the budget N = 0. -/
theorem iteration_budget_zero_counterexample :
    ¬ ((wfRunFull (fun _ => ⟨false, false, "draft body", "reviewed body", 0⟩) 10
        "SRS" "inventory" "track stock" 0).genCalls ≤ 0) := by
  have h := (wfRun_clean (fun _ => ⟨false, false, "draft body", "reviewed body", 0⟩)
    (fun _ => ⟨rfl, rfl⟩) 3 "SRS" "inventory" "track stock" 0).1
  rw [show (10:ℕ) = 3 + 7 from rfl, h]
  omega

/-- C1 (amended): for every caller-supplied bound N that is at least 1, a
workflow run never invokes the Draft Generator more than N times; the
generate node increments the count once per attempt and the post-review
router finalizes once the count reaches the bound (indeed, the generator
runs at most once in every run).  For N = 0 the bound fails, since the
first generation is unconditional. -/
theorem iteration_budget (env : ℕ → NodeOutcome) (fuel : ℕ)
    (docType summary requirements : String) (N : ℕ) (hN : 1 ≤ N) :
    (wfRunFull env fuel docType summary requirements N).genCalls ≤ N := by
  have h := (wfRun_inv env fuel 0 .initializeN
    (initState docType summary requirements N)
    (wfInv_init docType summary requirements N)).1
  exact h.trans hN

/-- C1 witness: the amended bound evaluated on a concrete run with
budget 2. -/
theorem iteration_budget_witness :
    (wfRunFull (fun _ => ⟨false, false, "draft body", "reviewed body", 1⟩) 20
      "SRS" "inventory" "track stock" 2).genCalls ≤ 2 :=
  iteration_budget _ 20 "SRS" "inventory" "track stock" 2 (by norm_num)

/-- C2: the quality score starts at the caller-independent default 0.7;
a successful review step sets it to exactly
min(1, previous + 0.05 * number_of_changes), which never decreases it and
keeps it within bounds; and along every workflow run the final quality
score stays within the interval from 0 to 1. -/
theorem quality_score_update (o : NodeOutcome) (s : WFState)
    (ht : o.throws = false) (hn : o.agentNone = false) :
    (∀ docType summary requirements maxIterations,
       (initState docType summary requirements maxIterations).qualityScore = 7/10) ∧
    ((runNode o .reviewDocN s).qualityScore =
       min 1 (s.qualityScore + o.reviewChanges * (5/100))) ∧
    (s.qualityScore ≤ 1 → s.qualityScore ≤ (runNode o .reviewDocN s).qualityScore) ∧
    (0 ≤ s.qualityScore → 0 ≤ (runNode o .reviewDocN s).qualityScore) ∧
    (runNode o .reviewDocN s).qualityScore ≤ 1 ∧
    (∀ env fuel docType summary requirements maxIterations,
       0 ≤ (wfRunFull env fuel docType summary requirements maxIterations).qualityScore ∧
       (wfRunFull env fuel docType summary requirements maxIterations).qualityScore ≤ 1) := by
  have hq : (runNode o .reviewDocN s).qualityScore =
      min 1 (s.qualityScore + o.reviewChanges * (5/100)) := by
    simp [runNode, ht, hn]
  refine ⟨fun _ _ _ _ => rfl, hq, ?_, ?_, ?_, ?_⟩
  · intro h1
    rw [hq]
    refine le_min h1 ?_
    have hc : (0:ℚ) ≤ o.reviewChanges * (5/100) := by positivity
    linarith
  · intro h0
    rw [hq]
    refine le_min (by norm_num) ?_
    have hc : (0:ℚ) ≤ o.reviewChanges * (5/100) := by positivity
    linarith
  · rw [hq]; exact min_le_left _ _
  · intro env fuel docType summary requirements maxIterations
    have h := (wfRun_inv env fuel 0 .initializeN
      (initState docType summary requirements maxIterations)
      (wfInv_init docType summary requirements maxIterations)).2
    exact ⟨le_trans (by norm_num) h.1, h.2⟩

/-- C2 witness: the review update evaluated concretely through the
theorem at the initial state with two changes made. -/
theorem quality_score_update_witness :
    (runNode ⟨false, false, "g", "rv", 2⟩ .reviewDocN
      (initState "SRS" "a" "b" 3)).qualityScore = 4/5 := by
  have h := (quality_score_update ⟨false, false, "g", "rv", 2⟩
    (initState "SRS" "a" "b" 3) rfl rfl).2.1
  rw [h, show (initState "SRS" "a" "b" 3).qualityScore = 7/10 from rfl]
  norm_num

/-- C10: in a run in which no node throws and no agent returns None, the
regeneration branch is unreachable: the quality score starts at 0.7 and
review only raises it, while regeneration requires it to drop below 0.7,
so the Draft Generator runs exactly once, the iteration count ends at 1,
and the run completes, regardless of max_iterations and of the review
outcome. -/
theorem nonerror_run_single_generation (env : ℕ → NodeOutcome)
    (henv : ∀ t, (env t).throws = false ∧ (env t).agentNone = false)
    (fuel : ℕ) (hfuel : 7 ≤ fuel) (docType summary requirements : String) (N : ℕ) :
    (wfRunFull env fuel docType summary requirements N).genCalls = 1 ∧
    (wfRunFull env fuel docType summary requirements N).iterationCount = 1 ∧
    (wfRunFull env fuel docType summary requirements N).workflowStatus = "completed" := by
  obtain ⟨m, rfl⟩ : ∃ m, fuel = m + 7 := ⟨fuel - 7, by omega⟩
  exact wfRun_clean env henv m docType summary requirements N

/-- C10 witness: a concrete clean run with budget 3, evaluated through the
theorem. -/
theorem nonerror_run_single_generation_witness :
    (wfRunFull (fun _ => ⟨false, false, "draft text", "review text", 4⟩) 9
      "SRS" "summary" "reqs" 3).genCalls = 1 ∧
    (wfRunFull (fun _ => ⟨false, false, "draft text", "review text", 4⟩) 9
      "SRS" "summary" "reqs" 3).iterationCount = 1 ∧
    (wfRunFull (fun _ => ⟨false, false, "draft text", "review text", 4⟩) 9
      "SRS" "summary" "reqs" 3).workflowStatus = "completed" :=
  nonerror_run_single_generation _ (fun _ => ⟨rfl, rfl⟩) 9 (by norm_num)
    "SRS" "summary" "reqs" 3

end SRSGen
